import Mathlib

/-!
Verification of the streaming-benchmark tool `benchmark_zai`.

We shallowly embed the pure logic of `src/benchmark_zai/benchmark.py`,
`utils.py` and `models.py`:

* JSON payloads are modelled by the inductive `Json`; Python's dynamic
  attribute/subscript/addition semantics (including the exceptions that
  dynamically ill-typed operations raise) are modelled by `Except PyErr`.
* `json.loads` is modelled by the executable parser `Json.parse`
  (JSON numbers are modelled as integers; fractional literals are not
  needed by any statement below).
* Byte strings are modelled by `String` (the source decodes bytes with
  `errors="replace"`, which is total, so we embed from the decoded text).
* Wall-clock timestamps (`time.perf_counter`) and millisecond metrics are
  modelled by rationals; the streaming transport is modelled by
  `StreamOutcome`, a finite list of timestamped chunks that either ends
  normally or is cut short by an HTTP/transport error.
* `statistics.mean` / `statistics.stdev` are modelled over the reals
  (`statisticsStdev` uses `Real.sqrt`, hence `calculate_stats` is marked
  noncomputable; every concrete statement below avoids evaluating the
  square root).
-/

namespace BenchmarkZai

/-- Model of a decoded JSON value (the result of `json.loads`).  Numbers
are modelled as integers: no claim below depends on fractional literals. -/
inductive Json where
  | null : Json
  | bool (b : Bool) : Json
  | num (n : Int) : Json
  | str (s : String) : Json
  | arr (elems : List Json) : Json
  | obj (fields : List (String × Json)) : Json
deriving Repr

/-- Python exceptions that the embedded code can raise.  The source only
catches `json.JSONDecodeError` (modelled by `Json.parse` returning `none`),
so any of these escapes `_parse_stream_chunk`. -/
inductive PyErr where
  | attributeError : PyErr
  | typeError : PyErr
  | indexError : PyErr
  | keyError : PyErr
deriving Repr, DecidableEq

/-- Look a key up in a decoded JSON object (Python dict lookup). -/
def Json.lookup (fields : List (String × Json)) (k : String) : Option Json :=
  (fields.find? (fun kv => kv.1 = k)).map (fun kv => kv.2)

/-- Python truthiness of a decoded JSON value. -/
def Json.truthy : Json → Bool
  | .null => false
  | .bool b => b
  | .num n => n != 0
  | .str s => s != ""
  | .arr xs => !xs.isEmpty
  | .obj fs => !fs.isEmpty

/-- Whether a value is a Python `str`. -/
def Json.isStr : Json → Bool
  | .str _ => true
  | _ => false

/-- Whether a value is a Python `dict`. -/
def Json.isObj : Json → Bool
  | .obj _ => true
  | _ => false

/-- Python `x.get(k, d)`: dict lookup with default; raises
`AttributeError` when the receiver is not a dict. -/
def pyGetD (j : Json) (k : String) (d : Json) : Except PyErr Json :=
  match j with
  | .obj fs => .ok ((Json.lookup fs k).getD d)
  | _ => .error .attributeError

/-- Numeric view used by Python `+` (`bool` is an `int` subtype). -/
def Json.toNumOpt : Json → Option Int
  | .bool b => some (if b then 1 else 0)
  | .num n => some n
  | _ => none

/-- Python `a + b` on decoded JSON values: string and list concatenation,
numeric addition (with booleans as 0/1), `TypeError` otherwise. -/
def pyAdd (a b : Json) : Except PyErr Json :=
  match a, b with
  | .str s, .str t => .ok (.str (s ++ t))
  | .arr xs, .arr ys => .ok (.arr (xs ++ ys))
  | _, _ =>
    match a.toNumOpt, b.toNumOpt with
    | some x, some y => .ok (.num (x + y))
    | _, _ => .error .typeError

/-- Python `x[0]`: first element of a list or string (strings index to
one-character strings), `IndexError` when empty, `KeyError` for a dict
whose keys are JSON strings (the integer key `0` is never present), and
`TypeError` for non-subscriptable values. -/
def pySubscript0 (j : Json) : Except PyErr Json :=
  match j with
  | .arr (x :: _) => .ok x
  | .arr [] => .error .indexError
  | .str s =>
    match s.toList with
    | c :: _ => .ok (.str (String.mk [c]))
    | [] => .error .indexError
  | .obj _ => .error .keyError
  | _ => .error .typeError

/-! Whitespace handling: Python `str.strip()` (on the ASCII whitespace
relevant here) and JSON inter-token whitespace. -/

/-- Characters removed by Python `str.strip()` (the ASCII ones). -/
def isPyWs (c : Char) : Bool :=
  c = ' ' || c = '\t' || c = '\n' || c = '\r' || c = '\x0b' || c = '\x0c'

/-- Python `line.strip()` over a character list. -/
def pyStrip (cs : List Char) : List Char :=
  ((cs.dropWhile isPyWs).reverse.dropWhile isPyWs).reverse

/-- JSON inter-token whitespace. -/
def isJsonWs (c : Char) : Bool :=
  c = ' ' || c = '\t' || c = '\n' || c = '\r'

/-- Drop leading JSON whitespace. -/
def skipWs : List Char → List Char
  | [] => []
  | c :: cs => if isJsonWs c then skipWs cs else c :: cs

/-- Value of a hexadecimal digit, if any. -/
def hexValOpt (c : Char) : Option Nat :=
  if '0' ≤ c ∧ c ≤ '9' then some (c.toNat - 48)
  else if 'a' ≤ c ∧ c ≤ 'f' then some (c.toNat - 87)
  else if 'A' ≤ c ∧ c ≤ 'F' then some (c.toNat - 55)
  else none

/-- Single-character JSON string escapes. -/
def escCharOpt (c : Char) : Option Char :=
  if c = '"' then some '"'
  else if c = '\\' then some '\\'
  else if c = '/' then some '/'
  else if c = 'b' then some '\x08'
  else if c = 'f' then some '\x0c'
  else if c = 'n' then some '\n'
  else if c = 'r' then some '\r'
  else if c = 't' then some '\t'
  else none

/-- Parse the body of a JSON string literal (after the opening quote),
accumulating decoded characters; rejects raw control characters, as
Python's strict JSON decoder does. -/
def parseStringBody : List Char → List Char → Option (String × List Char)
  | [], _ => none
  | c :: cs, acc =>
    if c = '"' then some (String.mk acc.reverse, cs)
    else if c = '\\' then
      match cs with
      | [] => none
      | e :: cs2 =>
        if e = 'u' then
          match cs2 with
          | h1 :: h2 :: h3 :: h4 :: cs3 =>
            match hexValOpt h1, hexValOpt h2, hexValOpt h3, hexValOpt h4 with
            | some a, some b, some c4, some d =>
              parseStringBody cs3 (Char.ofNat (((a * 16 + b) * 16 + c4) * 16 + d) :: acc)
            | _, _, _, _ => none
          | _ =>
            none
        else
          match escCharOpt e with
          | some ec => parseStringBody cs2 (ec :: acc)
          | none => none
    else if c.toNat < 32 then none
    else parseStringBody cs (c :: acc)

/-- Numeric value of a digit string. -/
def digitsVal (ds : List Char) : Nat :=
  ds.foldl (fun a c => a * 10 + (c.toNat - 48)) 0

/-- Parse a JSON integer literal (fractional and exponent forms are not
modelled and are rejected, as are leading zeros, mirroring the strict
decoder on the integer fragment). -/
def parseNum (cs : List Char) : Option (Json × List Char) :=
  let neg := match cs with | '-' :: _ => true | _ => false
  let cs1 := match cs with | '-' :: r => r | _ => cs
  let ds := cs1.takeWhile Char.isDigit
  let rest := cs1.dropWhile Char.isDigit
  if ds.isEmpty then none
  else if ds.length > 1 && ds.head? = some '0' then none
  else
    match rest with
    | '.' :: _ => none
    | 'e' :: _ => none
    | 'E' :: _ => none
    | _ => some (.num (if neg then -(digitsVal ds : Int) else (digitsVal ds : Int)), rest)

/-- Require a literal, returning the remainder. -/
def stripLit (lit : List Char) (cs : List Char) : Option (List Char) :=
  if lit.isPrefixOf cs then some (cs.drop lit.length) else none

/-- Insert a key/value pair into a decoded object, overwriting the value
of an existing key in place (Python dict semantics for duplicate JSON
keys: first position, last value). -/
def insertKV : List (String × Json) → String → Json → List (String × Json)
  | [], k, v => [(k, v)]
  | (k0, v0) :: fs, k, v =>
    if k0 = k then (k0, v) :: fs else (k0, v0) :: insertKV fs k v

mutual

/-- Fuel-indexed JSON value parser. -/
def parseVal : Nat → List Char → Option (Json × List Char)
  | 0, _ => none
  | fuel + 1, cs =>
    match skipWs cs with
    | [] => none
    | c :: rest =>
      if c = 'n' then (stripLit ['u', 'l', 'l'] rest).map (fun r => (Json.null, r))
      else if c = 't' then (stripLit ['r', 'u', 'e'] rest).map (fun r => (Json.bool true, r))
      else if c = 'f' then (stripLit ['a', 'l', 's', 'e'] rest).map (fun r => (Json.bool false, r))
      else if c = '"' then (parseStringBody rest []).map (fun sr => (Json.str sr.1, sr.2))
      else if c = '[' then
        match skipWs rest with
        | ']' :: r => some (Json.arr [], r)
        | cs2 => parseArrElems fuel cs2 []
      else if c = '\x7b' then
        match skipWs rest with
        | '\x7d' :: r => some (Json.obj [], r)
        | cs2 => parseObjFields fuel cs2 []
      else if c = '-' || c.isDigit then parseNum (c :: rest)
      else none

/-- Parse the elements of a non-empty JSON array (after `[`). -/
def parseArrElems : Nat → List Char → List Json → Option (Json × List Char)
  | 0, _, _ => none
  | fuel + 1, cs, acc =>
    match parseVal fuel cs with
    | none => none
    | some (v, r) =>
      match skipWs r with
      | ',' :: r2 => parseArrElems fuel r2 (v :: acc)
      | ']' :: r2 => some (Json.arr (v :: acc).reverse, r2)
      | _ => none

/-- Parse the fields of a non-empty JSON object (after the opening
brace). -/
def parseObjFields : Nat → List Char → List (String × Json) → Option (Json × List Char)
  | 0, _, _ => none
  | fuel + 1, cs, fs =>
    match skipWs cs with
    | '"' :: r =>
      match parseStringBody r [] with
      | none => none
      | some (k, r2) =>
        match skipWs r2 with
        | ':' :: r3 =>
          match parseVal fuel r3 with
          | none => none
          | some (v, r4) =>
            match skipWs r4 with
            | ',' :: r5 => parseObjFields fuel r5 (insertKV fs k v)
            | '\x7d' :: r5 => some (Json.obj (insertKV fs k v), r5)
            | _ => none
        | _ => none
    | _ => none

end

/-- Model of `json.loads`: `none` models a raised `json.JSONDecodeError`. -/
def Json.parse (s : String) : Option Json :=
  match parseVal (s.length + 1) s.toList with
  | some (v, rest) => if (skipWs rest).isEmpty then some v else none
  | none => none

/-!  The SSE chunk parser `_parse_stream_chunk` (benchmark.py lines 69-109).

The `StreamChunk` dataclass stores whatever values the dynamic field
accesses produce, so the parser-level chunk carries `Json` fields
(`StreamChunkDyn`); defaults mirror the dataclass defaults
(`content=""`, `finish_reason=None`, counters `0`). -/

/-- Parser-level view of the `StreamChunk` dataclass, with the
dynamically-typed values Python would actually store. -/
structure StreamChunkDyn where
  content : Json := .str ""
  finish_reason : Json := .null
  prompt_tokens : Json := .num 0
  completion_tokens : Json := .num 0
  total_tokens : Json := .num 0
deriving Repr

/-- The `if data.get("choices"):` block of `_parse_stream_chunk`. -/
def choicesPart (data : Json) (chunk : StreamChunkDyn) : Except PyErr StreamChunkDyn := do
  let choices ← pyGetD data "choices" .null
  if choices.truthy then do
    let choicesAgain ← pyGetD data "choices" .null
    let choice ← pySubscript0 choicesAgain
    let delta ← pyGetD choice "delta" (.obj [])
    let content ← pyGetD delta "content" (.str "")
    let reasoning ← pyGetD delta "reasoning_content" (.str "")
    let text ← pyAdd content reasoning
    let fr ← pyGetD choice "finish_reason" .null
    pure { chunk with content := text, finish_reason := fr }
  else
    pure chunk

/-- The `if "usage" in data:` block of `_parse_stream_chunk`.  This block
is only reached with `data` an object (a non-object would already have
raised inside `choicesPart`), so the non-object case reports the raise
Python's `data.get` would have produced earlier. -/
def usagePart (data : Json) (chunk : StreamChunkDyn) : Except PyErr StreamChunkDyn :=
  match data with
  | .obj fs =>
    match Json.lookup fs "usage" with
    | some usage => do
      let pt ← pyGetD usage "prompt_tokens" (.num 0)
      let ct ← pyGetD usage "completion_tokens" (.num 0)
      let tt ← pyGetD usage "total_tokens" (.num 0)
      pure { chunk with prompt_tokens := pt, completion_tokens := ct, total_tokens := tt }
    | none => pure chunk
  | _ => .error .attributeError

/-- Everything `_parse_stream_chunk` does after a successful `json.loads`. -/
def parsePayload (data : Json) : Except PyErr StreamChunkDyn := do
  let chunk ← choicesPart data {}
  usagePart data chunk

/-- Model of `_parse_stream_chunk` (benchmark.py lines 69-109) on the
decoded line text.  `Except.error` models an uncaught Python exception,
`.ok none` a skip, `.ok (some c)` a parsed increment. -/
def parse_stream_chunk (line : String) : Except PyErr (Option StreamChunkDyn) :=
  let cs := pyStrip line.toList
  if cs.isEmpty then .ok none
  else if cs = "data: [DONE]".toList then .ok none
  else if !("data: ".toList.isPrefixOf cs) then .ok none
  else
    match Json.parse (String.mk (cs.drop 6)) with
    | none => .ok none
    | some data =>
      match parsePayload data with
      | .ok chunk => .ok (some chunk)
      | .error e => .error e

/-- Shape of a first choice that the choices block handles without
raising: an object whose `delta` (defaulting to an empty object) is an
object whose `content` and `reasoning_content` fields (defaulting to the
empty string) are strings. -/
def goodChoice (c0 : Json) : Bool :=
  match c0 with
  | .obj cf =>
    match (Json.lookup cf "delta").getD (.obj []) with
    | .obj df =>
      ((Json.lookup df "content").getD (.str "")).isStr &&
        ((Json.lookup df "reasoning_content").getD (.str "")).isStr
    | _ => false
  | _ => false

/-- Shape of a truthy `choices` value that the choices block handles
without raising: a (necessarily non-empty) array with a good first
element. -/
def goodChoices : Json → Bool
  | .arr (c0 :: _) => goodChoice c0
  | _ => false

/-- Shape of the `usage` member handled without raising: absent, or an
object. -/
def goodUsage (fs : List (String × Json)) : Bool :=
  match Json.lookup fs "usage" with
  | some u => u.isObj
  | none => true

/-- Payloads on which `_parse_stream_chunk` cannot raise: JSON objects
whose `choices` member, when truthy, has a good shape, and whose `usage`
member, when present, is an object. -/
def goodPayload (data : Json) : Bool :=
  match data with
  | .obj fs =>
    (let ch := (Json.lookup fs "choices").getD .null
     !ch.truthy || goodChoices ch) && goodUsage fs
  | _ => false

/-- The four skip conditions of `_parse_stream_chunk`: blank line,
termination sentinel, missing data-prefix, or malformed JSON payload. -/
def skipCond (line : String) : Bool :=
  let cs := pyStrip line.toList
  cs.isEmpty || cs = "data: [DONE]".toList ||
    !("data: ".toList.isPrefixOf cs) ||
    (Json.parse (String.mk (cs.drop 6))).isNone

/-!  The timing pipeline `benchmark_model` (benchmark.py lines 161-242).

Timed trials are modelled over the `StreamChunk` dataclass with its
declared field types (`content: str`, integer counters), wall-clock
readings of `time.perf_counter` are rationals, and one trial's transport
behaviour is a `StreamOutcome`: either the stream ends normally at some
time, or it is cut short by the `APIError` that `stream_response`
(benchmark.py lines 155-158) raises for an HTTP status or transport
failure. -/

/-- The `StreamChunk` dataclass (models.py) with its declared field
types. -/
structure StreamChunk where
  content : String := ""
  finish_reason : Option String := none
  prompt_tokens : Int := 0
  completion_tokens : Int := 0
  total_tokens : Int := 0
deriving Repr, DecidableEq

/-- The `BenchmarkResult` dataclass (models.py). -/
structure BenchmarkResult where
  model : String
  ttft_ms : ℚ
  generation_speed : ℚ
  total_latency_ms : ℚ
  prompt_tokens : Int
  completion_tokens : Int
  total_tokens : Int
  success : Bool := true
  error : Option String := none
deriving Repr, DecidableEq

/-- The two `httpx` failure families that `stream_response` converts to
`APIError`. -/
inductive APIErr where
  | httpStatus (code : Nat) : APIErr
  | requestError (msg : String) : APIErr
deriving Repr, DecidableEq

/-- Message of the `APIError` raised by `stream_response`
(benchmark.py lines 155-158). -/
def APIErr.message : APIErr → String
  | .httpStatus code => "API request failed: " ++ toString code
  | .requestError msg => "Request error: " ++ msg

/-- Transport-level outcome of one streaming request: the timestamped
chunks yielded by `stream_response`, ending either normally at `endTime`
or in an `APIError` raised at `failTime`. -/
inductive StreamOutcome where
  | ok (chunks : List (ℚ × StreamChunk)) (endTime : ℚ) : StreamOutcome
  | fail (chunks : List (ℚ × StreamChunk)) (err : APIErr) (failTime : ℚ) : StreamOutcome
deriving Repr, DecidableEq

/-- Mutable loop state of `benchmark_model`'s `async for` body. -/
structure TrialState where
  ttft_time : Option ℚ := none
  prompt_tokens : Int := 0
  completion_tokens : Int := 0
  total_tokens : Int := 0
  content_length : Nat := 0
deriving Repr, DecidableEq

/-- One iteration of `benchmark_model`'s chunk loop (benchmark.py lines
184-196); the pair carries the `time.perf_counter` reading at which the
chunk arrived. -/
def stepChunk (st : TrialState) (tc : ℚ × StreamChunk) : TrialState :=
  let st1 := if tc.2.content ≠ "" ∧ st.ttft_time = none
    then { st with ttft_time := some tc.1 } else st
  let st2 := if tc.2.content ≠ ""
    then { st1 with content_length := st1.content_length + tc.2.content.length } else st1
  let st3 := if tc.2.prompt_tokens ≠ 0
    then { st2 with prompt_tokens := tc.2.prompt_tokens } else st2
  let st4 := if tc.2.completion_tokens ≠ 0
    then { st3 with completion_tokens := tc.2.completion_tokens } else st3
  if tc.2.total_tokens ≠ 0
    then { st4 with total_tokens := tc.2.total_tokens } else st4

/-- Model of `benchmark_model` (benchmark.py lines 161-242): `start` is
the `perf_counter` reading taken before the request, `outcome` the
transport behaviour of this trial. -/
def benchmark_model (model : String) (start : ℚ) (outcome : StreamOutcome) : BenchmarkResult :=
  match outcome with
  | .fail _ err failTime =>
    { model := model
      ttft_ms := 0
      generation_speed := 0
      total_latency_ms := (failTime - start) * 1000
      prompt_tokens := 0
      completion_tokens := 0
      total_tokens := 0
      success := false
      error := some err.message }
  | .ok chunks endTime =>
    let st := chunks.foldl stepChunk {}
    let ttft_time := st.ttft_time.getD endTime
    let ttft_ms := (ttft_time - start) * 1000
    let total_latency_ms := (endTime - start) * 1000
    let generation_time := if ttft_time ≠ 0 then endTime - ttft_time else endTime - start
    let completion_tokens : Int :=
      if st.completion_tokens = 0 ∧ st.content_length > 0
        then ((max 1 (st.content_length / 4) : Nat) : Int)
        else st.completion_tokens
    let generation_speed :=
      if generation_time > 0 then (completion_tokens : ℚ) / generation_time else 0
    { model := model
      ttft_ms := ttft_ms
      generation_speed := generation_speed
      total_latency_ms := total_latency_ms
      prompt_tokens := st.prompt_tokens
      completion_tokens := completion_tokens
      total_tokens := st.total_tokens
      success := true
      error := none }

/-- The most recent non-zero value in a list of counter readings (0 when
none is non-zero): the value the spec says each usage counter retains. -/
def lastNonzero (xs : List Int) : Int :=
  (xs.reverse.find? (fun x => x ≠ 0)).getD 0

/-!  The statistics aggregator `calculate_stats` (utils.py lines 9-50).
`statistics.mean` and `statistics.stdev` are modelled over the reals. -/

/-- The `ModelStats` dataclass (models.py). -/
structure ModelStats where
  model : String
  ttft_avg : ℝ
  ttft_std : ℝ
  speed_avg : ℝ
  speed_std : ℝ
  latency_avg : ℝ
  latency_std : ℝ
  tokens_avg : ℝ
  runs : Nat
  successful_runs : Nat

/-- Model of `statistics.mean`.  Real-number division makes this (like
`statisticsStdev` below) noncomputable in Lean; concrete instances are
evaluated through `norm_num`. -/
noncomputable def statisticsMean (xs : List ℝ) : ℝ := xs.sum / xs.length

/-- Model of `statistics.stdev` (sample standard deviation); the square
root makes this noncomputable, and `calculate_stats` only applies it to
lists of two or more samples. -/
noncomputable def statisticsStdev (xs : List ℝ) : ℝ :=
  Real.sqrt ((xs.map (fun x => (x - statisticsMean xs) ^ 2)).sum / ((xs.length : ℝ) - 1))

/-- Model of `calculate_stats` (utils.py lines 9-50). -/
noncomputable def calculate_stats (results : List BenchmarkResult) : ModelStats :=
  let successful := results.filter (fun r => r.success)
  if successful.isEmpty then
    { model := match results with | [] => "unknown" | r :: _ => r.model
      ttft_avg := 0, ttft_std := 0
      speed_avg := 0, speed_std := 0
      latency_avg := 0, latency_std := 0
      tokens_avg := 0
      runs := results.length
      successful_runs := 0 }
  else
    let ttfts := successful.map (fun r => (r.ttft_ms : ℝ))
    let speeds := successful.map (fun r => (r.generation_speed : ℝ))
    let latencies := successful.map (fun r => (r.total_latency_ms : ℝ))
    let tokens := successful.map (fun r => (r.completion_tokens : ℝ))
    { model := match results with | [] => "unknown" | r :: _ => r.model
      ttft_avg := statisticsMean ttfts
      ttft_std := if ttfts.length > 1 then statisticsStdev ttfts else 0
      speed_avg := statisticsMean speeds
      speed_std := if speeds.length > 1 then statisticsStdev speeds else 0
      latency_avg := statisticsMean latencies
      latency_std := if latencies.length > 1 then statisticsStdev latencies else 0
      tokens_avg := statisticsMean tokens
      runs := results.length
      successful_runs := successful.length }

/-!  The model-list resolver `fetch_available_models` (benchmark.py lines
31-66).  The network interaction is abstracted into a `FetchOutcome`: the
caught failure family (`httpx.HTTPStatusError`, `httpx.RequestError`,
`json.JSONDecodeError`), or a successfully decoded JSON body. -/

/-- The static fallback list (models.py). -/
def FALLBACK_MODELS : List String :=
  ["glm-5", "glm-4.7", "glm-4.7-flash", "glm-4.6", "glm-4.6-air", "glm-4.5", "glm-4.5-air"]

/-- Outcome of the GET request inside `fetch_available_models`. -/
inductive FetchOutcome where
  | failure : FetchOutcome
  | success (data : Json) : FetchOutcome

/-- Python iteration over the value of `data.get("data", [])`: lists
iterate their elements, strings their characters, dicts their keys;
anything else raises `TypeError`. -/
def iterElems : Json → Except PyErr (List Json)
  | .arr xs => .ok xs
  | .str s => .ok (s.toList.map (fun c => .str (String.mk [c])))
  | .obj fs => .ok (fs.map (fun kv => .str kv.1))
  | _ => .error .typeError

/-- The accumulation loop of `fetch_available_models`: append each
entry's truthy `id` (default `""`). -/
def collectModels : List Json → List Json → Except PyErr (List Json)
  | [], acc => .ok acc
  | m :: ms, acc => do
    let mid ← pyGetD m "id" (.str "")
    collectModels ms (if mid.truthy then acc ++ [mid] else acc)

/-- Lexicographic code-point comparison of character lists: Python's
`str` ordering. -/
def charListLe : List Char → List Char → Bool
  | [], _ => true
  | _ :: _, [] => false
  | a :: as, b :: bs =>
    if a.toNat < b.toNat then true
    else if b.toNat < a.toNat then false
    else charListLe as bs

/-- Python `a <= b` on strings (lexicographic by code point). -/
def pyStrLe (a b : String) : Bool := charListLe a.toList b.toList

/-- Model of Python `sorted` on the collected ids.  `sorted` compares
the elements pairwise; all claims below concern string ids, so we sort
strings (lexicographically by code point, as Python does) and model the
`TypeError` a non-string among them could provoke. -/
def pySorted (xs : List String) : List String :=
  List.insertionSort (fun a b => pyStrLe a b = true) xs

/-- Require every collected id to be a string, as Python's comparison
inside `sorted` does for the lists considered here. -/
def asStrings : List Json → Except PyErr (List String)
  | [] => .ok []
  | .str s :: xs => do
    let rest ← asStrings xs
    .ok (s :: rest)
  | _ :: _ => .error .typeError

/-- Model of `fetch_available_models` (benchmark.py lines 31-66) given
the outcome of the GET request. -/
def fetch_available_models (o : FetchOutcome) : Except PyErr (List String) :=
  match o with
  | .failure => .ok FALLBACK_MODELS
  | .success data => do
    let container ← pyGetD data "data" (.arr [])
    let entries ← iterElems container
    let models ← collectModels entries []
    if models.isEmpty then
      .ok FALLBACK_MODELS
    else do
      let strs ← asStrings models
      .ok (pySorted strs)

/-- Spec-side extraction of one entry's usable id: an object whose `id`
member (default `""`) is a non-empty string. -/
def entryId (e : Json) : Option String :=
  match e with
  | .obj efs =>
    match (Json.lookup efs "id").getD (.str "") with
    | .str s => if s = "" then none else some s
    | _ => none
  | _ => none

/-- Spec-side list of usable ids, in server order. -/
def collectIds (es : List Json) : List String := es.filterMap entryId

/-- Entry shape under which the accumulation loop cannot raise: an
object whose `id` member (default `""`) is a string. -/
def goodEntry (e : Json) : Bool :=
  match e with
  | .obj efs => ((Json.lookup efs "id").getD (.str "")).isStr
  | _ => false

/-- Whether a timestamped chunk carries non-empty text. -/
def hasText (tc : ℚ × StreamChunk) : Bool := tc.2.content != ""

/-!  Helper lemmas about the trial fold. -/

theorem stepChunk_ttft (st : TrialState) (tc : ℚ × StreamChunk) :
    (stepChunk st tc).ttft_time =
      if tc.2.content ≠ "" ∧ st.ttft_time = none then some tc.1 else st.ttft_time := by
  simp only [stepChunk]
  split_ifs <;> rfl

theorem stepChunk_content_length (st : TrialState) (tc : ℚ × StreamChunk) :
    (stepChunk st tc).content_length = st.content_length + tc.2.content.length := by
  simp only [stepChunk]
  split_ifs with h1 h2 h3 h4 h5 <;> simp_all

theorem stepChunk_prompt (st : TrialState) (tc : ℚ × StreamChunk) :
    (stepChunk st tc).prompt_tokens =
      if tc.2.prompt_tokens ≠ 0 then tc.2.prompt_tokens else st.prompt_tokens := by
  simp only [stepChunk]
  split_ifs <;> rfl

theorem stepChunk_completion (st : TrialState) (tc : ℚ × StreamChunk) :
    (stepChunk st tc).completion_tokens =
      if tc.2.completion_tokens ≠ 0 then tc.2.completion_tokens else st.completion_tokens := by
  simp only [stepChunk]
  split_ifs <;> rfl

theorem stepChunk_total (st : TrialState) (tc : ℚ × StreamChunk) :
    (stepChunk st tc).total_tokens =
      if tc.2.total_tokens ≠ 0 then tc.2.total_tokens else st.total_tokens := by
  simp only [stepChunk]
  split_ifs <;> rfl

theorem foldl_ttft_some (chunks : List (ℚ × StreamChunk)) (t : ℚ) :
    ∀ s : TrialState, s.ttft_time = some t →
      (chunks.foldl stepChunk s).ttft_time = some t := by
  induction chunks with
  | nil => intro s hs; simpa using hs
  | cons tc rest ih =>
    intro s hs
    apply ih
    rw [stepChunk_ttft, hs]
    simp

theorem foldl_ttft_none (chunks : List (ℚ × StreamChunk)) :
    ∀ s : TrialState, s.ttft_time = none →
      (chunks.foldl stepChunk s).ttft_time = (chunks.find? hasText).map Prod.fst := by
  induction chunks with
  | nil => intro s hs; simpa using hs
  | cons tc rest ih =>
    intro s hs
    by_cases h : hasText tc
    · have hcnt : tc.2.content ≠ "" := by simpa [hasText] using h
      have hset : (stepChunk s tc).ttft_time = some tc.1 := by
        rw [stepChunk_ttft]
        simp [hcnt, hs]
      simp only [List.foldl_cons, List.find?, h]
      exact foldl_ttft_some rest tc.1 _ hset
    · have hkeep : (stepChunk s tc).ttft_time = none := by
        rw [stepChunk_ttft, hs]
        simp [hasText] at h
        simp [h]
      simp only [List.foldl_cons, List.find?]
      rw [show (hasText tc) = false by simpa using h]
      exact ih _ hkeep

theorem foldl_content_length (chunks : List (ℚ × StreamChunk)) :
    ∀ s : TrialState, (chunks.foldl stepChunk s).content_length =
      s.content_length + (chunks.map (fun tc => tc.2.content.length)).sum := by
  induction chunks with
  | nil => intro s; simp
  | cons tc rest ih =>
    intro s
    simp only [List.foldl_cons, List.map_cons, List.sum_cons]
    rw [ih, stepChunk_content_length]
    ring

theorem foldl_prompt (chunks : List (ℚ × StreamChunk)) :
    ∀ s : TrialState, (chunks.foldl stepChunk s).prompt_tokens =
      (chunks.map (fun tc => tc.2.prompt_tokens)).foldl
        (fun a x => if x ≠ 0 then x else a) s.prompt_tokens := by
  induction chunks with
  | nil => intro s; simp
  | cons tc rest ih =>
    intro s
    simp only [List.foldl_cons, List.map_cons]
    rw [ih, stepChunk_prompt]

theorem foldl_completion (chunks : List (ℚ × StreamChunk)) :
    ∀ s : TrialState, (chunks.foldl stepChunk s).completion_tokens =
      (chunks.map (fun tc => tc.2.completion_tokens)).foldl
        (fun a x => if x ≠ 0 then x else a) s.completion_tokens := by
  induction chunks with
  | nil => intro s; simp
  | cons tc rest ih =>
    intro s
    simp only [List.foldl_cons, List.map_cons]
    rw [ih, stepChunk_completion]

theorem foldl_total (chunks : List (ℚ × StreamChunk)) :
    ∀ s : TrialState, (chunks.foldl stepChunk s).total_tokens =
      (chunks.map (fun tc => tc.2.total_tokens)).foldl
        (fun a x => if x ≠ 0 then x else a) s.total_tokens := by
  induction chunks with
  | nil => intro s; simp
  | cons tc rest ih =>
    intro s
    simp only [List.foldl_cons, List.map_cons]
    rw [ih, stepChunk_total]

theorem keepNonzero_eq (xs : List Int) :
    ∀ a : Int, xs.foldl (fun a x => if x ≠ 0 then x else a) a =
      (xs.reverse.find? (fun x => x ≠ 0)).getD a := by
  induction xs with
  | nil => intro a; rfl
  | cons x xs ih =>
    intro a
    simp only [List.foldl_cons, List.reverse_cons, List.find?_append]
    rw [ih]
    cases h : xs.reverse.find? (fun x => decide (x ≠ 0)) with
    | some y => simp [h]
    | none =>
      by_cases hx : x = 0 <;> simp [h, List.find?, hx]

theorem foldl_keepNonzero (xs : List Int) :
    xs.foldl (fun a x => if x ≠ 0 then x else a) 0 = lastNonzero xs := by
  rw [keepNonzero_eq, lastNonzero]

theorem ttft_time_mem (chunks : List (ℚ × StreamChunk)) (t : ℚ)
    (h : (chunks.foldl stepChunk {}).ttft_time = some t) :
    t ∈ chunks.map Prod.fst := by
  rw [foldl_ttft_none chunks {} rfl] at h
  cases hf : chunks.find? hasText with
  | none => rw [hf] at h; simp at h
  | some tc =>
    rw [hf] at h
    simp only [Option.map_some'] at h
    rw [← Option.some.inj h]
    exact List.mem_map_of_mem Prod.fst (List.mem_of_find?_eq_some hf)

theorem benchmark_ok_ttft_ms (model : String) (start : ℚ)
    (chunks : List (ℚ × StreamChunk)) (endTime : ℚ) :
    (benchmark_model model start (.ok chunks endTime)).ttft_ms =
      (((chunks.foldl stepChunk {}).ttft_time.getD endTime) - start) * 1000 := rfl

theorem benchmark_ok_total_latency (model : String) (start : ℚ)
    (chunks : List (ℚ × StreamChunk)) (endTime : ℚ) :
    (benchmark_model model start (.ok chunks endTime)).total_latency_ms =
      (endTime - start) * 1000 := rfl

theorem benchmark_ok_completion (model : String) (start : ℚ)
    (chunks : List (ℚ × StreamChunk)) (endTime : ℚ) :
    (benchmark_model model start (.ok chunks endTime)).completion_tokens =
      (if (chunks.foldl stepChunk {}).completion_tokens = 0 ∧
            (chunks.foldl stepChunk {}).content_length > 0
        then ((max 1 ((chunks.foldl stepChunk {}).content_length / 4) : Nat) : Int)
        else (chunks.foldl stepChunk {}).completion_tokens) := rfl

theorem benchmark_ok_speed (model : String) (start : ℚ)
    (chunks : List (ℚ × StreamChunk)) (endTime : ℚ) :
    (benchmark_model model start (.ok chunks endTime)).generation_speed =
      (if (if ((chunks.foldl stepChunk {}).ttft_time.getD endTime) ≠ 0
              then endTime - ((chunks.foldl stepChunk {}).ttft_time.getD endTime)
              else endTime - start) > 0
        then ((benchmark_model model start (.ok chunks endTime)).completion_tokens : ℚ) /
          (if ((chunks.foldl stepChunk {}).ttft_time.getD endTime) ≠ 0
              then endTime - ((chunks.foldl stepChunk {}).ttft_time.getD endTime)
              else endTime - start)
        else 0) := rfl

theorem append_ne_empty_left (s t : String) (h : s ≠ "") : s ++ t ≠ "" := by
  intro he
  apply h
  have hl : s.length + t.length = 0 := by
    have hc := congrArg String.length he
    simpa [String.length_append] using hc
  have hs0 : s.length = 0 := by omega
  exact String.ext (List.length_eq_zero.mp hs0)

theorem APIErr.message_ne_empty (e : APIErr) : e.message ≠ "" := by
  cases e <;> (apply append_ne_empty_left; decide)

/-- Claim C2: when the streaming request fails with an HTTP status error
or a transport error, `benchmark_model` returns (rather than raises) a
failed `BenchmarkResult` whose error text contains the status code or the
error description, whose total latency records the elapsed time up to the
failure, and whose TTFT, speed and token counts are all zero; and in
every result it produces, `success = false` implies a non-empty error and
`success = true` implies no error. -/
theorem C2_failed_result_fields (model : String) (start : ℚ)
    (chunks : List (ℚ × StreamChunk)) (err : APIErr) (failTime : ℚ) :
    (benchmark_model model start (.fail chunks err failTime)).success = false ∧
    (benchmark_model model start (.fail chunks err failTime)).error = some err.message ∧
    (benchmark_model model start (.fail chunks err failTime)).total_latency_ms =
      (failTime - start) * 1000 ∧
    (benchmark_model model start (.fail chunks err failTime)).ttft_ms = 0 ∧
    (benchmark_model model start (.fail chunks err failTime)).generation_speed = 0 ∧
    (benchmark_model model start (.fail chunks err failTime)).prompt_tokens = 0 ∧
    (benchmark_model model start (.fail chunks err failTime)).completion_tokens = 0 ∧
    (benchmark_model model start (.fail chunks err failTime)).total_tokens = 0 ∧
    (∀ code, err = .httpStatus code → ∃ p q, err.message = p ++ toString code ++ q) ∧
    (∀ m, err = .requestError m → ∃ p q, err.message = p ++ m ++ q) ∧
    (∀ outcome : StreamOutcome,
      ((benchmark_model model start outcome).success = false →
        ∃ msg, (benchmark_model model start outcome).error = some msg ∧ msg ≠ "") ∧
      ((benchmark_model model start outcome).success = true →
        (benchmark_model model start outcome).error = none)) := by
  refine ⟨rfl, rfl, rfl, rfl, rfl, rfl, rfl, rfl, ?_, ?_, ?_⟩
  · intro code hc
    subst hc
    exact ⟨"API request failed: ", "", by simp [APIErr.message]⟩
  · intro m hm
    subst hm
    exact ⟨"Request error: ", "", by simp [APIErr.message]⟩
  · intro outcome
    cases outcome with
    | ok cks e =>
      constructor
      · intro h
        simp [benchmark_model] at h
      · intro _
        rfl
    | fail cks e ft =>
      constructor
      · intro _
        exact ⟨e.message, rfl, APIErr.message_ne_empty e⟩
      · intro h
        simp [benchmark_model] at h

/-- Claim C2 witness at a concrete HTTP 500 failure. -/
theorem C2_witness :
    (benchmark_model "glm-5" 1 (.fail [] (.httpStatus 500) 3)).success = false ∧
    (benchmark_model "glm-5" 1 (.fail [] (.httpStatus 500) 3)).total_latency_ms = 2000 ∧
    (∃ p q, APIErr.message (.httpStatus 500) = p ++ toString 500 ++ q) := by
  obtain ⟨h1, h2, h3, h4, h5, h6, h7, h8, h9, h10, h11⟩ :=
    C2_failed_result_fields "glm-5" 1 [] (.httpStatus 500) 3
  refine ⟨h1, ?_, h9 500 rfl⟩
  rw [h3]
  norm_num

/-- Claim C4: in a successful trial the TTFT timestamp is the timestamp
of the first chunk with non-empty text (later chunks never overwrite it),
and when no chunk ever carried text, `ttft_ms` equals
`total_latency_ms`. -/
theorem C4_ttft_first_nonempty (model : String) (start : ℚ)
    (chunks : List (ℚ × StreamChunk)) (endTime : ℚ) :
    (∀ t c, chunks.find? hasText = some (t, c) →
      (benchmark_model model start (.ok chunks endTime)).ttft_ms = (t - start) * 1000) ∧
    (chunks.find? hasText = none →
      (benchmark_model model start (.ok chunks endTime)).ttft_ms =
        (benchmark_model model start (.ok chunks endTime)).total_latency_ms) := by
  constructor
  · intro t c hf
    rw [benchmark_ok_ttft_ms, foldl_ttft_none chunks {} rfl, hf]
    simp
  · intro hf
    rw [benchmark_ok_ttft_ms, benchmark_ok_total_latency, foldl_ttft_none chunks {} rfl, hf]
    simp

/-- Claim C4 witness: the second chunk carries the first non-empty text
at time 3, so with start 1, TTFT is 2000 ms even though a third
non-empty chunk follows. -/
theorem C4_witness :
    (benchmark_model "glm-5" 1
      (.ok [(2, {}), (3, { content := "hi" }), (5, { content := "x" })] 7)).ttft_ms = 2000 := by
  have h := (C4_ttft_first_nonempty "glm-5" 1
    [(2, {}), (3, { content := "hi" }), (5, { content := "x" })] 7).1 3 { content := "hi" }
    (by decide)
  rw [h]
  norm_num

/-- Claim C5: when no chunk ever reported a non-zero completion-token
count, `benchmark_model` estimates `max 1 (length / 4)` tokens if any
content was produced and zero otherwise; a reported non-zero count is
used unchanged. -/
theorem C5_completion_estimate (model : String) (start : ℚ)
    (chunks : List (ℚ × StreamChunk)) (endTime : ℚ) :
    (lastNonzero (chunks.map (fun tc => tc.2.completion_tokens)) = 0 →
      0 < (chunks.map (fun tc => tc.2.content.length)).sum →
      (benchmark_model model start (.ok chunks endTime)).completion_tokens =
        ((max 1 ((chunks.map (fun tc => tc.2.content.length)).sum / 4) : Nat) : Int)) ∧
    (lastNonzero (chunks.map (fun tc => tc.2.completion_tokens)) = 0 →
      (chunks.map (fun tc => tc.2.content.length)).sum = 0 →
      (benchmark_model model start (.ok chunks endTime)).completion_tokens = 0) ∧
    (lastNonzero (chunks.map (fun tc => tc.2.completion_tokens)) ≠ 0 →
      (benchmark_model model start (.ok chunks endTime)).completion_tokens =
        lastNonzero (chunks.map (fun tc => tc.2.completion_tokens))) := by
  have hc : (chunks.foldl stepChunk {}).completion_tokens =
      lastNonzero (chunks.map (fun tc => tc.2.completion_tokens)) := by
    rw [foldl_completion chunks {}]
    exact foldl_keepNonzero _
  have hl : (chunks.foldl stepChunk {}).content_length =
      (chunks.map (fun tc => tc.2.content.length)).sum := by
    rw [foldl_content_length chunks {}]
    simp
  refine ⟨?_, ?_, ?_⟩
  · intro h0 hpos
    rw [benchmark_ok_completion, hc, hl]
    simp [h0, hpos]
  · intro h0 hz
    rw [benchmark_ok_completion, hc, hl]
    simp [h0, hz]
  · intro hne
    rw [benchmark_ok_completion, hc, hl]
    rw [if_neg]
    rintro ⟨he, _⟩
    exact hne he

/-- Claim C5 witness: 8 characters of content and no reported counts
estimate to `max 1 (8 / 4) = 2` tokens. -/
theorem C5_witness :
    (benchmark_model "glm-5" 1 (.ok [(2, { content := "abcdefgh" })] 7)).completion_tokens
      = 2 := by
  have h := (C5_completion_estimate "glm-5" 1 [(2, { content := "abcdefgh" })] 7).1
    (by decide) (by decide)
  rw [h]
  decide

/-- Claim C6: the generation speed reported for a successful trial is the
final completion-token count divided by the elapsed time from TTFT to
stream end (recoverable from the result as
`(total_latency_ms - ttft_ms) / 1000` seconds), and it is exactly zero
whenever that denominator is non-positive — rational division, never an
infinity or a division error.  The hypotheses state that wall-clock
readings of `time.perf_counter` are positive. -/
theorem C6_generation_speed (model : String) (start : ℚ)
    (chunks : List (ℚ × StreamChunk)) (endTime : ℚ)
    (hts : ∀ tc ∈ chunks, 0 < tc.1) (hend : 0 < endTime) :
    (0 < ((benchmark_model model start (.ok chunks endTime)).total_latency_ms -
          (benchmark_model model start (.ok chunks endTime)).ttft_ms) / 1000 →
      (benchmark_model model start (.ok chunks endTime)).generation_speed =
        ((benchmark_model model start (.ok chunks endTime)).completion_tokens : ℚ) /
          (((benchmark_model model start (.ok chunks endTime)).total_latency_ms -
            (benchmark_model model start (.ok chunks endTime)).ttft_ms) / 1000)) ∧
    (((benchmark_model model start (.ok chunks endTime)).total_latency_ms -
        (benchmark_model model start (.ok chunks endTime)).ttft_ms) / 1000 ≤ 0 →
      (benchmark_model model start (.ok chunks endTime)).generation_speed = 0) := by
  have hT : 0 < (chunks.foldl stepChunk {}).ttft_time.getD endTime := by
    cases ht : (chunks.foldl stepChunk {}).ttft_time with
    | none => simpa using hend
    | some t =>
      have hmem := ttft_time_mem chunks t ht
      simp only [List.mem_map] at hmem
      obtain ⟨tc, htc, hfst⟩ := hmem
      simpa [ht, ← hfst] using hts tc htc
  have hne : (chunks.foldl stepChunk {}).ttft_time.getD endTime ≠ 0 := ne_of_gt hT
  have hdenom : ((benchmark_model model start (.ok chunks endTime)).total_latency_ms -
      (benchmark_model model start (.ok chunks endTime)).ttft_ms) / 1000 =
      endTime - (chunks.foldl stepChunk {}).ttft_time.getD endTime := by
    rw [benchmark_ok_total_latency, benchmark_ok_ttft_ms]
    ring
  constructor
  · intro hpos
    rw [hdenom] at hpos
    rw [benchmark_ok_speed, if_pos hne, hdenom, if_pos hpos]
  · intro hle
    rw [hdenom] at hle
    rw [benchmark_ok_speed, if_pos hne, if_neg (not_lt.mpr hle)]

/-- Claim C6 witness: 10 reported tokens over 2 seconds of generation
give a speed of 5 tokens per second. -/
theorem C6_witness :
    (benchmark_model "glm-5" 1
      (.ok [(2, { content := "hi", completion_tokens := 10 })] 4)).generation_speed = 5 := by
  have hts : ∀ tc ∈ [((2 : ℚ), ({ content := "hi", completion_tokens := 10 } : StreamChunk))],
      0 < tc.1 := by
    intro tc htc
    simp only [List.mem_singleton] at htc
    subst htc
    norm_num
  have hlat : (benchmark_model "glm-5" 1
      (.ok [(2, { content := "hi", completion_tokens := 10 })] 4)).total_latency_ms = 3000 := by
    rw [benchmark_ok_total_latency]
    norm_num
  have httft : (benchmark_model "glm-5" 1
      (.ok [(2, { content := "hi", completion_tokens := 10 })] 4)).ttft_ms = 1000 := by
    rw [benchmark_ok_ttft_ms]
    rw [show ((([(2, { content := "hi", completion_tokens := 10 })] : List (ℚ × StreamChunk)).foldl
      stepChunk {}).ttft_time) = some 2 from rfl]
    norm_num
  have hcomp : (benchmark_model "glm-5" 1
      (.ok [(2, { content := "hi", completion_tokens := 10 })] 4)).completion_tokens = 10 := by
    decide
  have h := (C6_generation_speed "glm-5" 1
    [(2, { content := "hi", completion_tokens := 10 })] 4 hts (by norm_num)).1
    (by rw [hlat, httft]; norm_num)
  rw [h, hlat, httft, hcomp]
  norm_num

/-- Claim C7: across one trial, each usage counter retained by
`benchmark_model`'s loop state is the most recent non-zero value seen in
the stream for that field independently (a later zero never overwrites
an earlier non-zero value), and the prompt and total counters land
unchanged in the successful result. -/
theorem C7_usage_last_nonzero (model : String) (start : ℚ)
    (chunks : List (ℚ × StreamChunk)) (endTime : ℚ) :
    (chunks.foldl stepChunk {}).prompt_tokens =
      lastNonzero (chunks.map (fun tc => tc.2.prompt_tokens)) ∧
    (chunks.foldl stepChunk {}).completion_tokens =
      lastNonzero (chunks.map (fun tc => tc.2.completion_tokens)) ∧
    (chunks.foldl stepChunk {}).total_tokens =
      lastNonzero (chunks.map (fun tc => tc.2.total_tokens)) ∧
    (benchmark_model model start (.ok chunks endTime)).prompt_tokens =
      (chunks.foldl stepChunk {}).prompt_tokens ∧
    (benchmark_model model start (.ok chunks endTime)).total_tokens =
      (chunks.foldl stepChunk {}).total_tokens := by
  refine ⟨?_, ?_, ?_, rfl, rfl⟩
  · rw [foldl_prompt chunks {}]
    exact foldl_keepNonzero _
  · rw [foldl_completion chunks {}]
    exact foldl_keepNonzero _
  · rw [foldl_total chunks {}]
    exact foldl_keepNonzero _

/-- Claim C3: with no successful result, `calculate_stats` returns
all-zero metrics, `runs` equal to the input length, zero successful runs
and the first result's model (or the sentinel `"unknown"` on an empty
list); otherwise every mean and sample standard deviation is computed
over the successful subset only, with each standard deviation defined as
zero when that subset has exactly one element. -/
theorem C3_calculate_stats_spec (results : List BenchmarkResult) :
    (results.filter (fun r => r.success) = [] →
      (calculate_stats results).model =
        (match results with | [] => "unknown" | r :: _ => r.model) ∧
      (calculate_stats results).ttft_avg = 0 ∧
      (calculate_stats results).ttft_std = 0 ∧
      (calculate_stats results).speed_avg = 0 ∧
      (calculate_stats results).speed_std = 0 ∧
      (calculate_stats results).latency_avg = 0 ∧
      (calculate_stats results).latency_std = 0 ∧
      (calculate_stats results).tokens_avg = 0 ∧
      (calculate_stats results).runs = results.length ∧
      (calculate_stats results).successful_runs = 0) ∧
    (results.filter (fun r => r.success) ≠ [] →
      (calculate_stats results).ttft_avg =
        statisticsMean ((results.filter (fun r => r.success)).map (fun r => (r.ttft_ms : ℝ))) ∧
      (calculate_stats results).ttft_std =
        (if (results.filter (fun r => r.success)).length = 1 then 0
         else statisticsStdev
            ((results.filter (fun r => r.success)).map (fun r => (r.ttft_ms : ℝ)))) ∧
      (calculate_stats results).speed_avg =
        statisticsMean
          ((results.filter (fun r => r.success)).map (fun r => (r.generation_speed : ℝ))) ∧
      (calculate_stats results).speed_std =
        (if (results.filter (fun r => r.success)).length = 1 then 0
         else statisticsStdev
            ((results.filter (fun r => r.success)).map (fun r => (r.generation_speed : ℝ)))) ∧
      (calculate_stats results).latency_avg =
        statisticsMean
          ((results.filter (fun r => r.success)).map (fun r => (r.total_latency_ms : ℝ))) ∧
      (calculate_stats results).latency_std =
        (if (results.filter (fun r => r.success)).length = 1 then 0
         else statisticsStdev
            ((results.filter (fun r => r.success)).map (fun r => (r.total_latency_ms : ℝ)))) ∧
      (calculate_stats results).tokens_avg =
        statisticsMean
          ((results.filter (fun r => r.success)).map (fun r => (r.completion_tokens : ℝ))) ∧
      (calculate_stats results).runs = results.length ∧
      (calculate_stats results).successful_runs =
        (results.filter (fun r => r.success)).length) := by
  constructor
  · intro h
    have he : (results.filter (fun r => r.success)).isEmpty = true := by simp [h]
    simp only [calculate_stats, he, if_true]
    simp
  · intro h
    have he : (results.filter (fun r => r.success)).isEmpty = false := by
      simpa [List.isEmpty_iff] using h
    have hn : (results.filter (fun r => r.success)).length ≠ 0 := by
      simpa [List.length_eq_zero] using h
    simp only [calculate_stats, he, Bool.false_eq_true, if_false, List.length_map]
    refine ⟨by trivial, ?_, by trivial, ?_, by trivial, ?_, by trivial, by trivial, by trivial⟩ <;>
      · by_cases h1 : (results.filter (fun r => r.success)).length = 1
        · simp [h1]
        · have h2 : 1 < (results.filter (fun r => r.success)).length := by omega
          simp [h1, h2]

/-- Claim C3 witness: a single successful result yields zero standard
deviations and averages equal to the result's own values. -/
theorem C3_witness :
    (calculate_stats [⟨"glm-5", 10, 20, 30, 1, 2, 3, true, none⟩]).ttft_std = 0 ∧
    (calculate_stats [⟨"glm-5", 10, 20, 30, 1, 2, 3, true, none⟩]).ttft_avg = 10 ∧
    (calculate_stats [⟨"glm-5", 10, 20, 30, 1, 2, 3, true, none⟩]).tokens_avg = 2 ∧
    (calculate_stats [⟨"glm-5", 10, 20, 30, 1, 2, 3, true, none⟩]).runs = 1 ∧
    (calculate_stats [⟨"glm-5", 10, 20, 30, 1, 2, 3, true, none⟩]).successful_runs = 1 := by
  obtain ⟨h1, h2, h3, h4, h5, h6, h7, h8, h9⟩ :=
    (C3_calculate_stats_spec [⟨"glm-5", 10, 20, 30, 1, 2, 3, true, none⟩]).2 (by simp)
  refine ⟨?_, ?_, ?_, ?_, ?_⟩
  · rw [h2]
    simp [List.filter]
  · rw [h1]
    simp [List.filter, statisticsMean]
  · rw [h7]
    simp [List.filter, statisticsMean]
  · rw [h8]
    simp
  · rw [h9]
    simp [List.filter]

/-!  Helper lemmas about `_parse_stream_chunk`. -/

theorem isStr_shape (j : Json) (h : j.isStr = true) : ∃ s, j = .str s := by
  cases j <;> simp [Json.isStr] at h ⊢

theorem isObj_shape (j : Json) (h : j.isObj = true) : ∃ fs, j = .obj fs := by
  cases j <;> simp [Json.isObj] at h ⊢

theorem goodChoices_shape (ch : Json) (h : goodChoices ch = true) :
    ∃ c0 rest, ch = .arr (c0 :: rest) ∧ goodChoice c0 = true := by
  cases ch with
  | arr xs =>
    cases xs with
    | nil => simp [goodChoices] at h
    | cons c0 rest => exact ⟨c0, rest, rfl, h⟩
  | null => simp [goodChoices] at h
  | bool b => simp [goodChoices] at h
  | num n => simp [goodChoices] at h
  | str s => simp [goodChoices] at h
  | obj fs => simp [goodChoices] at h

theorem goodChoice_shape (c0 : Json) (h : goodChoice c0 = true) :
    ∃ cf df s1 s2, c0 = Json.obj cf ∧
      (Json.lookup cf "delta").getD (.obj []) = .obj df ∧
      (Json.lookup df "content").getD (.str "") = .str s1 ∧
      (Json.lookup df "reasoning_content").getD (.str "") = .str s2 := by
  cases c0 with
  | obj cf =>
    cases hd : (Json.lookup cf "delta").getD (.obj []) with
    | obj df =>
      have h2 : ((Json.lookup df "content").getD (.str "")).isStr = true ∧
          ((Json.lookup df "reasoning_content").getD (.str "")).isStr = true := by
        have := h
        simp only [goodChoice, hd, Bool.and_eq_true] at this
        exact this
      obtain ⟨s1, hs1⟩ := isStr_shape _ h2.1
      obtain ⟨s2, hs2⟩ := isStr_shape _ h2.2
      exact ⟨cf, df, s1, s2, rfl, hd, hs1, hs2⟩
    | null => simp [goodChoice, hd] at h
    | bool b => simp [goodChoice, hd] at h
    | num n => simp [goodChoice, hd] at h
    | str s => simp [goodChoice, hd] at h
    | arr xs => simp [goodChoice, hd] at h
  | null => simp [goodChoice] at h
  | bool b => simp [goodChoice] at h
  | num n => simp [goodChoice] at h
  | str s => simp [goodChoice] at h
  | arr xs => simp [goodChoice] at h

theorem goodPayload_shape (data : Json) (h : goodPayload data = true) :
    ∃ fs, data = .obj fs ∧
      (((Json.lookup fs "choices").getD .null).truthy = false ∨
        goodChoices ((Json.lookup fs "choices").getD .null) = true) ∧
      goodUsage fs = true := by
  cases data with
  | obj fs =>
    simp only [goodPayload, Bool.and_eq_true, Bool.or_eq_true, Bool.not_eq_true'] at h
    exact ⟨fs, rfl, h.1, h.2⟩
  | null => simp [goodPayload] at h
  | bool b => simp [goodPayload] at h
  | num n => simp [goodPayload] at h
  | str s => simp [goodPayload] at h
  | arr xs => simp [goodPayload] at h

theorem choicesPart_falsy (fs : List (String × Json)) (chunk : StreamChunkDyn)
    (h : ((Json.lookup fs "choices").getD .null).truthy = false) :
    choicesPart (.obj fs) chunk = .ok chunk := by
  simp [choicesPart, pyGetD, h, Bind.bind, Except.bind, Pure.pure, Except.pure]

theorem choicesPart_good (fs cf df : List (String × Json)) (c0 : Json) (rest : List Json)
    (s1 s2 : String) (chunk : StreamChunkDyn)
    (hch : (Json.lookup fs "choices").getD .null = .arr (c0 :: rest))
    (hc0 : c0 = .obj cf)
    (hdelta : (Json.lookup cf "delta").getD (.obj []) = .obj df)
    (hcont : (Json.lookup df "content").getD (.str "") = .str s1)
    (hreas : (Json.lookup df "reasoning_content").getD (.str "") = .str s2) :
    choicesPart (.obj fs) chunk = .ok { chunk with
      content := .str (s1 ++ s2),
      finish_reason := (Json.lookup cf "finish_reason").getD .null } := by
  subst hc0
  simp [choicesPart, pyGetD, hch, hdelta, hcont, hreas, Json.truthy, pySubscript0, pyAdd,
    Bind.bind, Except.bind, Pure.pure, Except.pure]

theorem usagePart_good (fs : List (String × Json)) (chunk : StreamChunkDyn)
    (h : goodUsage fs = true) :
    ∃ c, usagePart (.obj fs) chunk = .ok c ∧
      c.content = chunk.content ∧ c.finish_reason = chunk.finish_reason := by
  cases hu : Json.lookup fs "usage" with
  | none =>
    refine ⟨chunk, ?_, rfl, rfl⟩
    simp [usagePart, hu, Pure.pure, Except.pure]
  | some u =>
    have hobj : u.isObj = true := by
      have := h
      simp only [goodUsage, hu] at this
      exact this
    obtain ⟨uf, huf⟩ := isObj_shape u hobj
    subst huf
    refine ⟨{ chunk with
      prompt_tokens := (Json.lookup uf "prompt_tokens").getD (.num 0),
      completion_tokens := (Json.lookup uf "completion_tokens").getD (.num 0),
      total_tokens := (Json.lookup uf "total_tokens").getD (.num 0) }, ?_, rfl, rfl⟩
    simp [usagePart, hu, pyGetD, Bind.bind, Except.bind, Pure.pure, Except.pure]

theorem usagePart_ok_fields (data : Json) (chunk c : StreamChunkDyn)
    (h : usagePart data chunk = .ok c) :
    c.content = chunk.content ∧ c.finish_reason = chunk.finish_reason := by
  cases data with
  | obj fs =>
    cases hu : Json.lookup fs "usage" with
    | none =>
      rw [usagePart, hu] at h
      simp only [Pure.pure, Except.pure, Except.ok.injEq] at h
      subst h
      exact ⟨rfl, rfl⟩
    | some u =>
      rw [usagePart, hu] at h
      cases u <;>
        simp only [pyGetD, Bind.bind, Except.bind, Pure.pure, Except.pure,
          Except.ok.injEq, reduceCtorEq] at h
      subst h
      exact ⟨rfl, rfl⟩
  | null => simp [usagePart] at h
  | bool b => simp [usagePart] at h
  | num n => simp [usagePart] at h
  | str s => simp [usagePart] at h
  | arr xs => simp [usagePart] at h

theorem parsePayload_good (data : Json) (h : goodPayload data = true) :
    ∃ c, parsePayload data = .ok c := by
  obtain ⟨fs, rfl, hcg, hu⟩ := goodPayload_shape data h
  rcases hcg with hfalsy | hgood
  · obtain ⟨c, hc, _, _⟩ := usagePart_good fs {} hu
    exact ⟨c, by
      simp [parsePayload, choicesPart_falsy fs {} hfalsy, Bind.bind, Except.bind, hc]⟩
  · obtain ⟨c0, rest, hch, hgc⟩ := goodChoices_shape _ hgood
    obtain ⟨cf, df, s1, s2, hc0, hd, h1, h2⟩ := goodChoice_shape c0 hgc
    obtain ⟨c, hc, _, _⟩ := usagePart_good fs
      { content := .str (s1 ++ s2),
        finish_reason := (Json.lookup cf "finish_reason").getD .null } hu
    refine ⟨c, ?_⟩
    simp [parsePayload, choicesPart_good fs cf df c0 rest s1 s2 {} hch hc0 hd h1 h2,
      Bind.bind, Except.bind, hc]

theorem parse_line_with_marker (line : String) (jcs : List Char)
    (hsplit : pyStrip line.toList = "data: ".toList ++ jcs) :
    parse_stream_chunk line =
      (match Json.parse (String.mk jcs) with
       | none => .ok none
       | some data =>
         match parsePayload data with
         | .ok c => .ok (some c)
         | .error e => .error e) := by
  by_cases hd : jcs = "[DONE]".toList
  · subst hd
    have hcs : pyStrip line.toList = "data: [DONE]".toList := by rw [hsplit]; rfl
    have hpn : Json.parse (String.mk "[DONE]".toList) = none := rfl
    rw [parse_stream_chunk, hcs, hpn]
    simp [List.isEmpty]
  · have hne : ("data: ".toList ++ jcs).isEmpty = false := by
      rw [show "data: ".toList = ['d', 'a', 't', 'a', ':', ' '] from rfl]
      simp
    have hdone : ¬("data: ".toList ++ jcs = "data: [DONE]".toList) := by
      intro heq
      apply hd
      have hab : "data: ".toList ++ jcs = "data: ".toList ++ "[DONE]".toList := by
        rw [heq]
        rfl
      exact List.append_cancel_left hab
    have hpref : "data: ".toList.isPrefixOf ("data: ".toList ++ jcs) = true := by
      rw [List.isPrefixOf_iff_prefix]
      exact List.prefix_append _ _
    have hdrop : ("data: ".toList ++ jcs).drop 6 = jcs := by
      rw [show (6 : Nat) = ("data: ".toList).length from rfl]
      simp
    rw [parse_stream_chunk, hsplit, hne, hdrop]
    simp only [Bool.false_eq_true, if_false, if_neg hdone, hpref, Bool.not_true, if_false]

/-- Claim C1 (amended): `_parse_stream_chunk` returns an increment or a
skip signal and never raises, for every line whose payload — when it is
valid JSON at all — is a JSON object whose truthy `choices` member is an
array whose first element is an object with an object `delta` carrying
string `content`/`reasoning_content` fields (each defaulting as the code
does), and whose `usage` member, when present, is an object.  On payloads
that are valid JSON of another shape (for example `null`), the code
raises instead of skipping. -/
theorem C1_parse_total_on_wellshaped (line : String)
    (hgood : ∀ data, Json.parse (String.mk ((pyStrip line.toList).drop 6)) = some data →
      goodPayload data = true) :
    ∃ r, parse_stream_chunk line = .ok r := by
  by_cases h1 : (pyStrip line.toList).isEmpty = true
  · exact ⟨none, by rw [parse_stream_chunk, if_pos h1]⟩
  · by_cases h2 : pyStrip line.toList = "data: [DONE]".toList
    · exact ⟨none, by rw [parse_stream_chunk, if_neg h1, if_pos h2]⟩
    · by_cases h3 : "data: ".toList.isPrefixOf (pyStrip line.toList) = true
      · obtain ⟨jcs, hsplit⟩ : ∃ jcs, pyStrip line.toList = "data: ".toList ++ jcs := by
          obtain ⟨t, ht⟩ := List.isPrefixOf_iff_prefix.mp h3
          exact ⟨t, ht.symm⟩
        have hdrop : (pyStrip line.toList).drop 6 = jcs := by
          rw [hsplit, show (6 : Nat) = ("data: ".toList).length from rfl]
          simp
        rw [parse_line_with_marker line jcs hsplit]
        cases hp : Json.parse (String.mk jcs) with
        | none => exact ⟨none, rfl⟩
        | some data =>
          have hg := hgood data (by rw [hdrop]; exact hp)
          obtain ⟨c, hc⟩ := parsePayload_good data hg
          exact ⟨some c, by simp [hc]⟩
      · have h3' : "data: ".toList.isPrefixOf (pyStrip line.toList) = false := by
          cases hb : "data: ".toList.isPrefixOf (pyStrip line.toList) with
          | false => rfl
          | true => exact absurd hb h3
        refine ⟨none, ?_⟩
        rw [parse_stream_chunk, if_neg h1, if_neg h2, h3']
        rfl

/-- Claim C1 counterexample: the payload `null` is valid JSON, so the
claim as stated requires a skip, but the code's `data.get("choices")`
raises `AttributeError` on it. -/
theorem C1_counterexample_null_payload :
    parse_stream_chunk "data: null" = .error .attributeError := rfl

/-- Claim C1 witness at the well-shaped line `data: {}`. -/
theorem C1_witness : ∃ r, parse_stream_chunk "data: \x7b\x7d" = .ok r := by
  apply C1_parse_total_on_wellshaped
  intro data h
  have he : Json.parse (String.mk ((pyStrip ("data: \x7b\x7d" : String).toList).drop 6)) =
      some (Json.obj []) := rfl
  rw [he] at h
  rw [← Option.some.inj h]
  rfl

/-- Claim C8: whenever a line parses to an increment and its payload is
an object with a choices array whose first element is an object with an
object delta carrying string content fields, the increment's text is the
primary content field concatenated with the reasoning field (each
defaulting to the empty string), and the finish reason is copied from
the first choice (absent defaulting to null). -/
theorem C8_choices_content_concat (line : String) (jcs : List Char)
    (fs cf df : List (String × Json)) (c0 : Json) (rest : List Json)
    (s1 s2 : String) (chunk : StreamChunkDyn)
    (hsplit : pyStrip line.toList = "data: ".toList ++ jcs)
    (hparse : Json.parse (String.mk jcs) = some (.obj fs))
    (hch : Json.lookup fs "choices" = some (.arr (c0 :: rest)))
    (hc0 : c0 = .obj cf)
    (hdelta : (Json.lookup cf "delta").getD (.obj []) = .obj df)
    (hcont : (Json.lookup df "content").getD (.str "") = .str s1)
    (hreas : (Json.lookup df "reasoning_content").getD (.str "") = .str s2)
    (hok : parse_stream_chunk line = .ok (some chunk)) :
    chunk.content = .str (s1 ++ s2) ∧
    chunk.finish_reason = (Json.lookup cf "finish_reason").getD .null := by
  have hline := parse_line_with_marker line jcs hsplit
  rw [hparse] at hline
  have hline2 : parse_stream_chunk line =
      (match parsePayload (Json.obj fs) with
       | .ok c => .ok (some c)
       | .error e => .error e) := hline
  have hch' : (Json.lookup fs "choices").getD .null = .arr (c0 :: rest) := by rw [hch]; rfl
  have hmid := choicesPart_good fs cf df c0 rest s1 s2 {} hch' hc0 hdelta hcont hreas
  have hp : parsePayload (.obj fs) = usagePart (.obj fs)
      { content := .str (s1 ++ s2),
        finish_reason := (Json.lookup cf "finish_reason").getD .null } := by
    simp [parsePayload, hmid, Bind.bind, Except.bind]
  rw [hp] at hline2
  cases hu : usagePart (.obj fs)
      { content := .str (s1 ++ s2),
        finish_reason := (Json.lookup cf "finish_reason").getD .null } with
  | error e =>
    rw [hu] at hline2
    have hbad : parse_stream_chunk line = .error e := hline2
    rw [hbad] at hok
    simp at hok
  | ok c =>
    rw [hu] at hline2
    have hfin : parse_stream_chunk line = .ok (some c) := hline2
    rw [hfin] at hok
    simp only [Except.ok.injEq, Option.some.injEq] at hok
    obtain ⟨hcnt, hfr⟩ := usagePart_ok_fields _ _ _ hu
    rw [← hok]
    exact ⟨hcnt, hfr⟩

set_option maxRecDepth 8000 in
/-- Claim C8 witness: the spec's concrete scenario line yields an
increment with text `"Hello"` and a null finish reason. -/
theorem C8_witness :
    ∃ chunk : StreamChunkDyn,
      parse_stream_chunk
        "data: \x7b\"choices\":[\x7b\"delta\":\x7b\"content\":\"Hello\"\x7d,\"finish_reason\":null\x7d]\x7d" =
        .ok (some chunk) ∧
      chunk.content = .str "Hello" ∧ chunk.finish_reason = .null := by
  refine ⟨{ content := .str "Hello", finish_reason := .null }, rfl, ?_⟩
  have h := C8_choices_content_concat
    "data: \x7b\"choices\":[\x7b\"delta\":\x7b\"content\":\"Hello\"\x7d,\"finish_reason\":null\x7d]\x7d"
    ("\x7b\"choices\":[\x7b\"delta\":\x7b\"content\":\"Hello\"\x7d,\"finish_reason\":null\x7d]\x7d" : String).toList
    [("choices", Json.arr [Json.obj [("delta", Json.obj [("content", Json.str "Hello")]),
      ("finish_reason", Json.null)]])]
    [("delta", Json.obj [("content", Json.str "Hello")]), ("finish_reason", Json.null)]
    [("content", Json.str "Hello")]
    (Json.obj [("delta", Json.obj [("content", Json.str "Hello")]), ("finish_reason", Json.null)])
    [] "Hello" "" { content := .str "Hello", finish_reason := .null }
    rfl rfl rfl rfl rfl rfl rfl rfl
  exact h

/-- Claim C9 (amended): `_parse_stream_chunk` skips exactly the lines
that are blank after trimming, equal to the `data: [DONE]` sentinel,
missing the `data: ` prefix, or carrying malformed JSON; and every other
line whose payload is a well-shaped object — including a valid payload
with neither choices nor usage — yields an increment.  A valid non-object
payload (for example `5`) yields neither a skip nor an increment: the
code raises on it. -/
theorem C9_skip_characterization (line : String)
    (hgood : ∀ data, Json.parse (String.mk ((pyStrip line.toList).drop 6)) = some data →
      goodPayload data = true) :
    (parse_stream_chunk line = .ok none ↔ skipCond line = true) ∧
    (skipCond line = false → ∃ c, parse_stream_chunk line = .ok (some c)) := by
  by_cases h1 : (pyStrip line.toList).isEmpty = true
  · constructor
    · refine ⟨fun _ => ?_, fun _ => ?_⟩
      · simp only [skipCond]
        rw [h1]
        rfl
      · rw [parse_stream_chunk, if_pos h1]
    · intro hsk
      simp only [skipCond] at hsk
      rw [h1] at hsk
      simp at hsk
  · have h1b : (pyStrip line.toList).isEmpty = false := by
      cases hb : (pyStrip line.toList).isEmpty with
      | false => rfl
      | true => exact absurd hb h1
    by_cases h2 : pyStrip line.toList = "data: [DONE]".toList
    · constructor
      · refine ⟨fun _ => ?_, fun _ => ?_⟩
        · simp only [skipCond]
          rw [h2]
          rfl
        · rw [parse_stream_chunk, if_neg h1, if_pos h2]
      · intro hsk
        simp only [skipCond] at hsk
        rw [h2] at hsk
        simp at hsk
    · by_cases h3 : "data: ".toList.isPrefixOf (pyStrip line.toList) = true
      · obtain ⟨jcs, hsplit⟩ : ∃ jcs, pyStrip line.toList = "data: ".toList ++ jcs := by
          obtain ⟨t, ht⟩ := List.isPrefixOf_iff_prefix.mp h3
          exact ⟨t, ht.symm⟩
        have hdrop : (pyStrip line.toList).drop 6 = jcs := by
          rw [hsplit, show (6 : Nat) = ("data: ".toList).length from rfl]
          simp
        rw [parse_line_with_marker line jcs hsplit]
        cases hp : Json.parse (String.mk jcs) with
        | none =>
          constructor
          · refine ⟨fun _ => ?_, fun _ => rfl⟩
            simp only [skipCond]
            rw [hdrop, hp]
            simp
          · intro hsk
            simp only [skipCond] at hsk
            rw [hdrop, hp] at hsk
            simp at hsk
        | some data =>
          have hg := hgood data (by rw [hdrop]; exact hp)
          obtain ⟨c, hc⟩ := parsePayload_good data hg
          constructor
          · constructor
            · intro h
              simp [hc] at h
            · intro hsk
              simp only [skipCond] at hsk
              rw [hdrop, hp, h3, h1b] at hsk
              simp at hsk
              exact (h2 hsk).elim
          · intro _
            exact ⟨c, by simp [hc]⟩
      · have h3' : "data: ".toList.isPrefixOf (pyStrip line.toList) = false := by
          cases hb : "data: ".toList.isPrefixOf (pyStrip line.toList) with
          | false => rfl
          | true => exact absurd hb h3
        constructor
        · refine ⟨fun _ => ?_, fun _ => ?_⟩
          · simp only [skipCond]
            rw [h3']
            simp
          · rw [parse_stream_chunk, if_neg h1, if_neg h2, h3']
            rfl
        · intro hsk
          simp only [skipCond] at hsk
          rw [h3'] at hsk
          simp at hsk

/-- Claim C9 counterexample: `data: 5` is trimmed, prefixed and carries
valid JSON, so it matches none of the four skip conditions; the claim
says it must yield an increment, but the code raises `AttributeError`
on the integer payload. -/
theorem C9_counterexample_num_payload :
    parse_stream_chunk "data: 5" = .error .attributeError ∧
      skipCond "data: 5" = false := ⟨rfl, rfl⟩

/-- Claim C9 witness: a valid object payload with neither choices nor
usage is not skipped but produces an (empty) increment, unlike the four
skip conditions. -/
theorem C9_witness :
    (parse_stream_chunk "data: \x7b\x7d" = .ok none ↔ skipCond "data: \x7b\x7d" = true) ∧
    (skipCond "data: \x7b\x7d" = false →
      ∃ c, parse_stream_chunk "data: \x7b\x7d" = .ok (some c)) := by
  apply C9_skip_characterization
  intro data h
  have he : Json.parse (String.mk ((pyStrip ("data: \x7b\x7d" : String).toList).drop 6)) =
      some (Json.obj []) := rfl
  rw [he] at h
  rw [← Option.some.inj h]
  rfl

/-!  Helper lemmas about `fetch_available_models`. -/

theorem collectModels_good (es : List Json) :
    ∀ acc : List Json, (∀ e ∈ es, goodEntry e = true) →
      collectModels es acc = .ok (acc ++ (collectIds es).map Json.str) := by
  induction es with
  | nil => intro acc _; simp [collectModels, collectIds]
  | cons e es ih =>
    intro acc h
    have hgE : goodEntry e = true := h e (List.mem_cons_self e es)
    have hrest : ∀ x ∈ es, goodEntry x = true := fun x hx => h x (List.mem_cons_of_mem e hx)
    obtain ⟨efs, hefs⟩ : ∃ efs, e = Json.obj efs := by
      cases e <;> simp [goodEntry] at hgE ⊢
    subst hefs
    obtain ⟨s, hs⟩ := isStr_shape _ hgE
    rw [collectModels]
    simp only [pyGetD, Bind.bind, Except.bind, hs]
    rw [ih _ hrest]
    by_cases hse : s = ""
    · subst hse
      simp [Json.truthy, collectIds, entryId, hs]
    · have : (Json.str s).truthy = true := by simpa [Json.truthy] using hse
      simp only [this, if_pos]
      simp [collectIds, entryId, hs, hse]

theorem asStrings_map (ss : List String) : asStrings (ss.map Json.str) = .ok ss := by
  induction ss with
  | nil => rfl
  | cons s ss ih => simp [asStrings, ih, Bind.bind, Except.bind]

theorem charListLe_total : ∀ as bs : List Char, charListLe as bs = true ∨ charListLe bs as = true := by
  intro as
  induction as with
  | nil => intro bs; left; rfl
  | cons a as ih =>
    intro bs
    cases bs with
    | nil => right; rfl
    | cons b bs =>
      by_cases hab : a.toNat < b.toNat
      · left
        simp [charListLe, hab]
      · by_cases hba : b.toNat < a.toNat
        · right
          simp [charListLe, hba]
        · rcases ih bs with h | h
          · left
            simp [charListLe, hab, hba, h]
          · right
            simp [charListLe, hab, hba, h]

theorem charListLe_trans : ∀ as bs cs : List Char,
    charListLe as bs = true → charListLe bs cs = true → charListLe as cs = true := by
  intro as
  induction as with
  | nil => intro bs cs _ _; rfl
  | cons a as ih =>
    intro bs cs h1 h2
    cases bs with
    | nil => simp [charListLe] at h1
    | cons b bs =>
      cases cs with
      | nil => simp [charListLe] at h2
      | cons c cs =>
        simp only [charListLe] at h1 h2 ⊢
        by_cases hab : a.toNat < b.toNat
        · by_cases hbc : b.toNat < c.toNat
          · have : a.toNat < c.toNat := Nat.lt_trans hab hbc
            simp [this]
          · by_cases hcb : c.toNat < b.toNat
            · simp [hbc, hcb] at h2
            · have : a.toNat < c.toNat := by omega
              simp [this]
        · by_cases hba : b.toNat < a.toNat
          · simp [hab, hba] at h1
          · by_cases hbc : b.toNat < c.toNat
            · have : a.toNat < c.toNat := by omega
              simp [this]
            · by_cases hcb : c.toNat < b.toNat
              · simp [hbc, hcb] at h2
              · have hac : ¬ a.toNat < c.toNat := by omega
                have hca : ¬ c.toNat < a.toNat := by omega
                simp only [hab, hba, if_false] at h1
                simp only [hbc, hcb, if_false] at h2
                simp [hac, hca, ih bs cs h1 h2]

/-- Claim C10: when the models request succeeds with a well-shaped body,
`fetch_available_models` returns the usable ids sorted lexicographically
(a sorted permutation of the served order), dropping entries whose id is
missing or empty; when no id survives the filtering — and likewise on
transport or parse failure — it returns the static fallback list. -/
theorem C10_fetch_models_sorted (fs : List (String × Json)) (entries : List Json)
    (hdata : (Json.lookup fs "data").getD (.arr []) = .arr entries)
    (hentries : ∀ e ∈ entries, goodEntry e = true) :
    (fetch_available_models (.success (.obj fs)) =
      .ok (if collectIds entries = [] then FALLBACK_MODELS
           else pySorted (collectIds entries))) ∧
    List.Sorted (fun a b => pyStrLe a b = true) (pySorted (collectIds entries)) ∧
    (pySorted (collectIds entries)).Perm (collectIds entries) ∧
    fetch_available_models .failure = .ok FALLBACK_MODELS := by
  haveI hTot : IsTotal String (fun a b => pyStrLe a b = true) :=
    ⟨fun a b => charListLe_total a.toList b.toList⟩
  haveI hTrans : IsTrans String (fun a b => pyStrLe a b = true) :=
    ⟨fun a b c => charListLe_trans a.toList b.toList c.toList⟩
  refine ⟨?_, ?_, ?_, rfl⟩
  · rw [fetch_available_models]
    simp only [pyGetD, Bind.bind, Except.bind, hdata, iterElems]
    rw [collectModels_good entries [] hentries]
    simp only [List.nil_append]
    by_cases hids : collectIds entries = []
    · simp [hids]
    · have hne : ((collectIds entries).map Json.str).isEmpty = false := by
        simp [List.isEmpty_iff, hids]
      simp only [hne, Bool.false_eq_true, if_false, if_neg hids]
      simp [asStrings_map, Bind.bind, Except.bind]
  · exact List.sorted_insertionSort _ _
  · exact List.perm_insertionSort _ _

/-- Claim C10 witness: ids arrive out of order with one empty and one
missing id; the result is the two usable ids sorted, not in server
order. -/
theorem C10_witness :
    fetch_available_models (.success (Json.obj [("data", Json.arr
      [Json.obj [("id", Json.str "glm-b")], Json.obj [("id", Json.str "glm-a")],
       Json.obj [("id", Json.str "")], Json.obj []])])) = .ok ["glm-a", "glm-b"] ∧
    fetch_available_models .failure = .ok FALLBACK_MODELS := by
  have h := C10_fetch_models_sorted
    [("data", Json.arr [Json.obj [("id", Json.str "glm-b")], Json.obj [("id", Json.str "glm-a")],
      Json.obj [("id", Json.str "")], Json.obj []])]
    [Json.obj [("id", Json.str "glm-b")], Json.obj [("id", Json.str "glm-a")],
     Json.obj [("id", Json.str "")], Json.obj []]
    rfl (by decide)
  refine ⟨?_, h.2.2.2⟩
  rw [h.1]
  rfl

end BenchmarkZai
